import Mathlib

/-!
Verification of the consolidation and reconciliation engine of the
transfer-portal tracker (src/agents/transfer_portal_orchestrator.py and
src/agents/news_monitor_agent.py), as a shallow embedding in Lean.

Conventions of the embedding:
* Python dicts keyed by the source enumeration become the `SMap` structure
  (one `Option` slot per source); the consolidated store (a dict keyed by
  player id, insertion-ordered) becomes an association list.
* Python truthiness on optional strings (`if sp["x"]:`) is `strTruthy`;
  on optional ints (`if sp["rank"]:`) it is "present and nonzero".
* Wall-clock timestamps are passed explicitly as naturals; refresh latency
  samples and confidence scores are rationals.
* `int(x)` truncation toward zero on a quotient of integers is `Int.tdiv`.
* A raw record missing its required `name` key is modelled with
  `name = none`; the `KeyError` the lookup raises in Python propagates to
  the per-source `except` block, which is modelled by `consolidateBatch`
  abandoning the rest of that source's batch.
-/

/-- The provider enumeration `DataSource` (the `ALL` member is query-only
and is modelled separately in `QuerySource`). -/
inductive Source where
  | on3
  | rivals
  | two47
deriving DecidableEq, Repr

/-- The `AgentStatus` enumeration. -/
inductive AgentStatus where
  | ready
  | running
  | error
  | inactive
deriving DecidableEq, Repr

/-- A Python dict keyed by `Source`: at most one value per source. -/
structure SMap (α : Type) where
  on3 : Option α := none
  rivals : Option α := none
  two47 : Option α := none
deriving DecidableEq, Repr

namespace SMap

def get (m : SMap α) : Source → Option α
  | .on3 => m.on3
  | .rivals => m.rivals
  | .two47 => m.two47

def set (m : SMap α) : Source → α → SMap α
  | .on3, v => { m with on3 := some v }
  | .rivals, v => { m with rivals := some v }
  | .two47, v => { m with two47 := some v }

/-- The values of the map (`dict.values()`); order is immaterial for the
code's uses (summation and counting). -/
def vals (m : SMap α) : List α := [m.on3, m.rivals, m.two47].filterMap id

end SMap

/-- A total per-source table (metrics, caches). -/
structure PerSource (α : Type) where
  on3 : α
  rivals : α
  two47 : α
deriving DecidableEq, Repr

namespace PerSource

def get (m : PerSource α) : Source → α
  | .on3 => m.on3
  | .rivals => m.rivals
  | .two47 => m.two47

def set (m : PerSource α) : Source → α → PerSource α
  | .on3, v => { m with on3 := v }
  | .rivals, v => { m with rivals := v }
  | .two47, v => { m with two47 := v }

end PerSource

/-- Python truthiness of an optional string: present and nonempty. -/
def strTruthy : Option String → Bool
  | none => false
  | some s => s ≠ ""

/-- The `stats` sub-dict of a raw record. -/
structure RawStats where
  ppg : Option ℚ := none
  rpg : Option ℚ := none
  apg : Option ℚ := none
  spg : Option ℚ := none
  bpg : Option ℚ := none
  fg_pct : Option ℚ := none
  three_pt_pct : Option ℚ := none
  ft_pct : Option ℚ := none
deriving DecidableEq, Repr

/-- The `PlayerStats` pydantic model. -/
structure PlayerStats where
  ppg : Option ℚ := none
  rpg : Option ℚ := none
  apg : Option ℚ := none
  spg : Option ℚ := none
  bpg : Option ℚ := none
  fg_pct : Option ℚ := none
  three_pt_pct : Option ℚ := none
  ft_pct : Option ℚ := none
  games : Option Int := none
  source : Option Source := none
deriving DecidableEq, Repr

/-- One source's raw dict for one player.  `name` is `Option` because the
malformed-record error case is precisely a dict missing the `name` key. -/
structure RawRecord where
  name : Option String := none
  position : Option String := none
  height : Option String := none
  previous_school : Option String := none
  last_team : Option String := none
  class_year : Option String := none
  eligibility : Option String := none
  status : Option String := none
  destination_school : Option String := none
  new_team : Option String := none
  rank : Option Int := none
  stats : Option RawStats := none
  nil_valuation : Option String := none
  profile_url : Option String := none
deriving DecidableEq, Repr

/-- The seven scalar descriptive fields governed by the basic-field merge
policy of `_update_player_from_source`. -/
structure BasicFields where
  position : Option String
  height : Option String
  previous_school : Option String
  class_year : Option String
  eligibility : Option String
  status : Option String
  destination_school : Option String
deriving DecidableEq, Repr

/-- The `TransferPlayer` pydantic model. -/
structure TransferPlayer where
  player_id : String
  name : String
  position : Option String := none
  height : Option String := none
  weight : Option Int := none
  previous_school : Option String := none
  class_year : Option String := none
  eligibility : Option String := none
  transfer_date : Option String := none
  status : Option String := none
  destination_school : Option String := none
  stats : SMap PlayerStats := {}
  rankings : SMap Int := {}
  composite_ranking : Option Int := none
  profile_urls : SMap String := {}
  nil_valuation : SMap String := {}
  sources : List Source := []
  last_updated : SMap Nat := {}
deriving DecidableEq, Repr

def TransferPlayer.basics (p : TransferPlayer) : BasicFields :=
  ⟨p.position, p.height, p.previous_school, p.class_year, p.eligibility,
   p.status, p.destination_school⟩

def TransferPlayer.withBasics (p : TransferPlayer) (b : BasicFields) : TransferPlayer :=
  { p with position := b.position, height := b.height,
           previous_school := b.previous_school, class_year := b.class_year,
           eligibility := b.eligibility, status := b.status,
           destination_school := b.destination_school }

/-- `any([player.position, ..., player.destination_school])` — Python
truthiness of each scalar field. -/
def anyBasic (b : BasicFields) : Bool :=
  strTruthy b.position || strTruthy b.height || strTruthy b.previous_school ||
  strTruthy b.class_year || strTruthy b.eligibility || strTruthy b.status ||
  strTruthy b.destination_school

/-- Lines 407-431: the conditional assignments of the seven basic fields.
Each assignment fires only when the raw value is truthy; `previous_school`
falls back to `last_team`, `destination_school` falls back to `new_team`
when the latter is truthy and not the literal string `"N/A"`. -/
def updateBasicValues (sp : RawRecord) (b : BasicFields) : BasicFields where
  position := if strTruthy sp.position then sp.position else b.position
  height := if strTruthy sp.height then sp.height else b.height
  previous_school :=
    if strTruthy sp.previous_school then sp.previous_school
    else if strTruthy sp.last_team then sp.last_team
    else b.previous_school
  class_year := if strTruthy sp.class_year then sp.class_year else b.class_year
  eligibility := if strTruthy sp.eligibility then sp.eligibility else b.eligibility
  status := if strTruthy sp.status then sp.status else b.status
  destination_school :=
    if strTruthy sp.destination_school then sp.destination_school
    else if strTruthy sp.new_team && (sp.new_team != some "N/A") then sp.new_team
    else b.destination_school

/-- Line 355: `player.last_updated[source] = datetime.now().isoformat()`. -/
def updStamp (p : TransferPlayer) (src : Source) (now : Nat) : TransferPlayer :=
  { p with last_updated := p.last_updated.set src now }

/-- Lines 357-359: record the profile URL under this source when truthy. -/
def updUrl (sp : RawRecord) (src : Source) (p : TransferPlayer) : TransferPlayer :=
  if strTruthy sp.profile_url then
    { p with profile_urls := p.profile_urls.set src (sp.profile_url.getD "") }
  else p

/-- Lines 361-372: record this source's rank when truthy, then recompute the
composite ranking as the truncated mean of all recorded ranks. -/
def updRank (sp : RawRecord) (src : Source) (p : TransferPlayer) : TransferPlayer :=
  match sp.rank with
  | some r =>
      if r ≠ 0 then
        let m := p.rankings.set src r
        { p with rankings := m,
                 composite_ranking :=
                   if m.vals ≠ [] then some (Int.tdiv m.vals.sum (m.vals.length : Int))
                   else p.composite_ranking }
      else p
  | none => p

/-- Lines 374-389: rebuild the per-source stat block (the construction copies
the eight rate fields, omits `games`, and stamps the source). -/
def updStats (sp : RawRecord) (src : Source) (p : TransferPlayer) : TransferPlayer :=
  match sp.stats with
  | some sd =>
      let st : PlayerStats :=
        ⟨sd.ppg, sd.rpg, sd.apg, sd.spg, sd.bpg, sd.fg_pct, sd.three_pt_pct,
         sd.ft_pct, none, some src⟩
      { p with stats := p.stats.set src st }
  | none => p

/-- Lines 391-393: record the NIL valuation string when truthy. -/
def updNil (sp : RawRecord) (src : Source) (p : TransferPlayer) : TransferPlayer :=
  if strTruthy sp.nil_valuation then
    { p with nil_valuation := p.nil_valuation.set src (sp.nil_valuation.getD "") }
  else p

/-- Lines 395-431: basic fields are (re)assigned only when the source is ON3
or no basic field is currently truthy. -/
def updBasic (sp : RawRecord) (src : Source) (p : TransferPlayer) : TransferPlayer :=
  if src = Source.on3 ∨ anyBasic p.basics = false then
    p.withBasics (updateBasicValues sp p.basics)
  else p

/-- `_update_player_from_source` (lines 352-431), with the wall clock passed
explicitly. -/
def updatePlayerFromSource (p : TransferPlayer) (sp : RawRecord) (src : Source)
    (now : Nat) : TransferPlayer :=
  updBasic sp src (updNil sp src (updStats sp src (updRank sp src
    (updUrl sp src (updStamp p src now)))))

/-- `str.lower()` on the character sequence. -/
def lowerStr (s : String) : String := ⟨s.data.map Char.toLower⟩

/-- `name.lower().replace(" ", "")`: lower-case and strip every space. -/
def normName (s : String) : String :=
  ⟨s.data.filterMap (fun c => if c = ' ' then none else some c.toLower)⟩

/-- `_generate_player_id` (lines 340-350): normalized name, suffixed with the
normalized school when the school is truthy. -/
def generatePlayerId (name : String) (school : Option String) : String :=
  match school with
  | some sch => if sch ≠ "" then normName name ++ "_" ++ normName sch else normName name
  | none => normName name

/-- The per-source metrics model `AgentMetrics`. -/
structure AgentMetrics where
  last_successful_refresh : Option Nat := none
  last_refresh_attempt : Option Nat := none
  refresh_count : Nat := 0
  error_count : Nat := 0
  player_count : Nat := 0
  average_refresh_time_ms : Option ℚ := none
  status : AgentStatus := AgentStatus.inactive
deriving DecidableEq, Repr

/-- Orchestrator state: consolidated store (insertion-ordered dict as an
association list), per-source metrics, per-source data caches, and the
consolidation timestamp. -/
structure OrchState where
  players : List (String × TransferPlayer) := []
  metrics : PerSource AgentMetrics := ⟨{}, {}, {}⟩
  caches : PerSource (List RawRecord) := ⟨[], [], []⟩
  last_consolidation : Option Nat := none
deriving DecidableEq, Repr

def storeLookup (ps : List (String × TransferPlayer)) (k : String) :
    Option TransferPlayer :=
  (ps.find? (fun kv => kv.1 == k)).map Prod.snd

/-- Dict assignment: replace in place if the key exists, append otherwise. -/
def storeSet : List (String × TransferPlayer) → String → TransferPlayer →
    List (String × TransferPlayer)
  | [], k, v => [(k, v)]
  | (k', v') :: rest, k, v =>
      if k' == k then (k', v) :: rest else (k', v') :: storeSet rest k v

/-- A fresh `TransferPlayer(player_id=..., name=..., sources=[source])`. -/
def newPlayer (pid nm : String) (src : Source) : TransferPlayer :=
  { player_id := pid, name := nm, sources := [src] }

/-- The inner loop of `consolidate_data` (lines 305-326) for one source's
cached batch.  A record whose dict has no `name` key raises `KeyError` at
`player_data["name"]`; the per-source `except` (line 328) catches it, so the
records already processed stay merged and the rest of the batch is dropped. -/
def consolidateBatch (ps : List (String × TransferPlayer)) (done : List String)
    (src : Source) (now : Nat) :
    List RawRecord → List (String × TransferPlayer) × List String
  | [] => (ps, done)
  | r :: rest =>
      match r.name with
      | none => (ps, done)
      | some nm =>
          let pid := generatePlayerId nm r.previous_school
          let done' := if pid ∈ done then done else done ++ [pid]
          let player :=
            match storeLookup ps pid with
            | none => newPlayer pid nm src
            | some pl =>
                if src ∈ pl.sources then pl
                else { pl with sources := pl.sources ++ [src] }
          let player := updatePlayerFromSource player r src now
          consolidateBatch (storeSet ps pid player) done' src now rest

/-- The dict-iteration order of `self.agents`. -/
def sourceOrder : List Source := [Source.on3, Source.rivals, Source.two47]

/-- `consolidate_data` (lines 283-338): process each source whose status is
READY or RUNNING and whose cache is non-empty, then pop every player id that
existed before the pass but was not touched during it. -/
def consolidateData (st : OrchState) (now : Nat) : OrchState :=
  let existing := st.players.map Prod.fst
  let step := fun (acc : List (String × TransferPlayer) × List String) (src : Source) =>
    let m := st.metrics.get src
    if m.status = AgentStatus.ready ∨ m.status = AgentStatus.running then
      let data := st.caches.get src
      if data = [] then acc
      else consolidateBatch acc.1 acc.2 src now data
    else acc
  let res := sourceOrder.foldl step (st.players, [])
  let ps := res.1.filter (fun kv => ¬(kv.1 ∈ existing ∧ kv.1 ∉ res.2))
  { st with players := ps, last_consolidation := some now }

/-- `refresh_agent` (lines 223-269), with the fetch outcome and the latency
sample passed explicitly.  The status/attempt updates precede the fetch, so
they survive a failure; on failure the error count grows, the status becomes
ERROR and `false` is returned with no consolidation; on success the EWMA
latency, counters and cache are updated and a consolidation pass runs. -/
def refreshAgent (st : OrchState) (src : Source)
    (fetched : Except String (List RawRecord)) (sample : ℚ) (now : Nat) :
    Bool × OrchState :=
  let m := st.metrics.get src
  let m := { m with status := AgentStatus.running, last_refresh_attempt := some now }
  match fetched with
  | .error _ =>
      let m := { m with error_count := m.error_count + 1, status := AgentStatus.error }
      (false, { st with metrics := st.metrics.set src m })
  | .ok data =>
      let avg :=
        match m.average_refresh_time_ms with
        | none => sample
        | some a => (8 / 10 : ℚ) * a + (2 / 10 : ℚ) * sample
      let m := { m with average_refresh_time_ms := some avg,
                        refresh_count := m.refresh_count + 1,
                        last_successful_refresh := some now,
                        player_count := data.length,
                        status := AgentStatus.ready }
      let st := { st with metrics := st.metrics.set src m,
                          caches := st.caches.set src data }
      (true, consolidateData st now)

/-- The query-side `DataSource` values: a concrete provider or `ALL`. -/
inductive QuerySource where
  | src (s : Source)
  | all
deriving DecidableEq, Repr

/-- The `PortalQuery` pydantic model with its field defaults. -/
structure PortalQuery where
  position : Option String := none
  min_ppg : Option ℚ := none
  school : Option String := none
  status : Option String := none
  source : Option QuerySource := some QuerySource.all
  limit : Option Int := some 20
  min_ranking : Option Int := none
  max_ranking : Option Int := none
deriving DecidableEq, Repr

/-- A `PortalQuery` built with every caller-omitted field at its default. -/
def defaultPortalQuery : PortalQuery := {}

/-- Does the needle occur at the head of the haystack? -/
def subAt : List Char → List Char → Bool
  | [], _ => true
  | _ :: _, [] => false
  | a :: as, b :: bs => a == b && subAt as bs

/-- Does the needle occur anywhere in the haystack? -/
def hasSub (n : List Char) : List Char → Bool
  | [] => n.isEmpty
  | c :: cs => subAt n (c :: cs) || hasSub n cs

/-- Python's `a in b` on strings: substring containment. -/
def pyIn (a b : String) : Bool := hasSub a.data b.data

/-- Python string `<`: lexicographic comparison by code point. -/
def strLtB : List Char → List Char → Bool
  | [], [] => false
  | [], _ :: _ => true
  | _ :: _, [] => false
  | a :: as, b :: bs =>
      if a.val < b.val then true
      else if a.val = b.val then strLtB as bs
      else false

def strLeB (a b : String) : Bool := a == b || strLtB a.data b.data

/-- The ascending sort key of line 485, `-(composite_ranking or inf)`:
`none` stands for minus infinity (a falsy composite ranking — `None` or
`0` — negates the `inf` fallback), otherwise the negated ranking. -/
def negRankKey (p : TransferPlayer) : Option Int :=
  match p.composite_ranking with
  | none => none
  | some c => if c = 0 then none else some (-c)

/-- The comparator induced by the sort key `(-(composite or inf), name)`. -/
def queryLe (a b : TransferPlayer) : Bool :=
  match negRankKey a, negRankKey b with
  | none, none => strLeB a.name b.name
  | none, some _ => true
  | some _, none => false
  | some x, some y => decide (x < y) || (x == y && strLeB a.name b.name)

/-- Stable insertion into a sorted list: the new element goes before the
first element it compares `le` to. -/
def insertLe (le : α → α → Bool) (a : α) : List α → List α
  | [] => [a]
  | b :: bs => if le a b then a :: b :: bs else b :: insertLe le a bs

/-- Stable sort (models Python's stable `list.sort`). -/
def sortLe (le : α → α → Bool) (l : List α) : List α :=
  l.foldr (insertLe le) []

/-- The filter pipeline and the sort of `query_players` (lines 440-488),
before the limit is applied. -/
def filteredSortedPlayers (st : OrchState) (q : PortalQuery) : List TransferPlayer :=
  let players := st.players.map Prod.snd
  let players :=
    if q.source ≠ some QuerySource.all then
      players.filter (fun p =>
        match q.source with
        | some (QuerySource.src s) => s ∈ p.sources
        | _ => false)
    else players
  let players :=
    match q.position with
    | some qp =>
        if qp ≠ "" then
          players.filter (fun p =>
            match p.position with
            | some pos => pos ≠ "" && pyIn (lowerStr qp) (lowerStr pos)
            | none => false)
        else players
    | none => players
  let players :=
    match q.school with
    | some qs =>
        if qs ≠ "" then
          players.filter (fun p =>
            (match p.previous_school with
             | some sch => sch ≠ "" && pyIn (lowerStr qs) (lowerStr sch)
             | none => false) ||
            (match p.destination_school with
             | some sch => sch ≠ "" && pyIn (lowerStr qs) (lowerStr sch)
             | none => false))
        else players
    | none => players
  let players :=
    match q.status with
    | some qst =>
        if qst ≠ "" then
          players.filter (fun p =>
            match p.status with
            | some s => s ≠ "" && pyIn (lowerStr qst) (lowerStr s)
            | none => false)
        else players
    | none => players
  let players :=
    match q.min_ppg with
    | some mp =>
        players.filter (fun p =>
          p.stats.vals.any (fun s =>
            match s.ppg with
            | some v => v ≠ 0 && decide (v ≥ mp)
            | none => false))
    | none => players
  let players :=
    match q.min_ranking with
    | some mr =>
        players.filter (fun p =>
          match p.composite_ranking with
          | some c => c ≠ 0 && decide (c ≥ mr)
          | none => false)
    | none => players
  let players :=
    match q.max_ranking with
    | some mr =>
        players.filter (fun p =>
          match p.composite_ranking with
          | some c => c ≠ 0 && decide (c ≤ mr)
          | none => false)
    | none => players
  sortLe queryLe players

/-- Python list slicing `l[:n]`: the first `n` elements when `n ≥ 0`, all but
the last `-n` elements when `n < 0`. -/
def pySlice (n : Int) (l : List α) : List α :=
  if n ≥ 0 then l.take n.toNat else l.take ((l.length : Int) + n).toNat

/-- `query_players` (lines 433-494): empty-store early return, filters, sort,
then `players[:limit]` applied only when the limit is truthy. -/
def queryPlayers (st : OrchState) (q : PortalQuery) : List TransferPlayer :=
  if st.players = [] then []
  else
    let fs := filteredSortedPlayers st q
    match q.limit with
    | none => fs
    | some n => if n = 0 then fs else pySlice n fs

/-- A collected transfer-news item (the fields of `TransferNewsItem` that the
post-processing pass reads and writes). -/
structure NewsItem where
  player_name : String
  previous_school : Option String := none
  destination_school : Option String := none
  confidence_score : ℚ := 0
  verified : Bool := false
  publication_date : Nat := 0
deriving DecidableEq, Repr

/-- Increment a school's tally, keeping first-occurrence (dict insertion)
order. -/
def countSchool : List (String × Nat) → String → List (String × Nat)
  | [], s => [(s, 1)]
  | (k, n) :: rest, s =>
      if k == s then (k, n + 1) :: rest else (k, n) :: countSchool rest s

/-- Tally the truthy values of one school field over the items, in
insertion order (lines 509-516). -/
def tallySchools (f : NewsItem → Option String) (items : List NewsItem) :
    List (String × Nat) :=
  items.foldl (fun acc it =>
    match f it with
    | some s => if s ≠ "" then countSchool acc s else acc
    | none => acc) []

/-- Python `max(..., key=count)`: the first entry holding the maximal count. -/
def argmaxFirst : String → Nat → List (String × Nat) → String
  | k, _, [] => k
  | k, n, (k', n') :: rest =>
      if n' > n then argmaxFirst k' n' rest else argmaxFirst k n rest

/-- Lines 519-520: the most frequently mentioned school, `none` when no item
supplied the field. -/
def mostCommon : List (String × Nat) → Option String
  | [] => none
  | (k, n) :: rest => some (argmaxFirst k n rest)

/-- Lines 523-535: per-item consensus adjustment.  The boost requires
agreement with an existing majority on both fields and at least three items;
the penalty requires only a truthy majority, a truthy own value, and a
mismatch on either field. -/
def adjustItem (mcp mcd : Option String) (count : Nat) (it : NewsItem) : NewsItem :=
  let consistentPrev :=
    match mcp with
    | some v => if v ≠ "" then it.previous_school == some v else false
    | none => false
  let consistentDest :=
    match mcd with
    | some v => if v ≠ "" then it.destination_school == some v else false
    | none => false
  let it :=
    if consistentPrev && consistentDest && count ≥ 3 then
      { it with verified := true,
                confidence_score := min 1 (it.confidence_score + 1 / 10) }
    else it
  let prevOff :=
    match mcp with
    | some v => v ≠ "" && strTruthy it.previous_school && (it.previous_school != some v)
    | none => false
  let destOff :=
    match mcd with
    | some v => v ≠ "" && strTruthy it.destination_school && (it.destination_school != some v)
    | none => false
  if prevOff || destOff then
    { it with confidence_score := max (3 / 10) (it.confidence_score - 2 / 10) }
  else it

/-- The body of `_post_process_news_items` (lines 503-535) for one player's
group of news items: with more than one item, sort newest-first, tally the
school fields, and apply the consensus adjustment to every item. -/
def processPlayerItems (items : List NewsItem) : List NewsItem :=
  if items.length > 1 then
    let sorted := sortLe (fun a b => b.publication_date ≤ a.publication_date) items
    let mcp := mostCommon (tallySchools (fun it => it.previous_school) sorted)
    let mcd := mostCommon (tallySchools (fun it => it.destination_school) sorted)
    sorted.map (adjustItem mcp mcd sorted.length)
  else items

/-- One record-merger step of the consolidation loop (lines 319-326 applied
to an existing player): append the source if absent, then update from the
raw record. -/
def mergeOne (p : TransferPlayer) (sp : RawRecord) (src : Source) (now : Nat) :
    TransferPlayer :=
  updatePlayerFromSource
    (if src ∈ p.sources then p else { p with sources := p.sources ++ [src] })
    sp src now

/-! Concrete fixtures used by the witnesses and counterexamples. -/

/-- A player whose only set scalar field is the position. -/
def pGuard : TransferPlayer :=
  { player_id := "gguard", name := "G Guard", position := some "G",
    sources := [Source.on3] }

/-- A raw record supplying a height (and a conflicting position). -/
def rHeight : RawRecord :=
  { name := some "G Guard", position := some "F", height := some "6-5" }

/-- A player already ranked by ON3 and 247. -/
def pRanked : TransferPlayer :=
  { player_id := "rranked", name := "R Ranked",
    rankings := { on3 := some 5, two47 := some 7 } }

/-- A raw record carrying rank 9. -/
def rRank9 : RawRecord := { name := some "R Ranked", rank := some 9 }

/-- Query-ordering fixture: Amy ranked 10, Bo ranked 3, Zed unranked. -/
def pAmy : TransferPlayer :=
  { player_id := "amy", name := "Amy", composite_ranking := some 10,
    sources := [Source.on3] }

def pBo : TransferPlayer :=
  { player_id := "bo", name := "Bo", composite_ranking := some 3,
    sources := [Source.rivals] }

def pZed : TransferPlayer :=
  { player_id := "zed", name := "Zed", composite_ranking := none,
    sources := [Source.two47] }

def stOrder : OrchState :=
  { players := [("amy", pAmy), ("zed", pZed), ("bo", pBo)] }

/-- Malformed-batch fixture: a good record, then one missing `name`, then
another good record. -/
def rGood1 : RawRecord := { name := some "Amy Adams", previous_school := some "Duke" }

def rBad : RawRecord := { position := some "G" }

def rGood2 : RawRecord := { name := some "Bo Burns" }

def stBatch : OrchState :=
  { metrics := ⟨{}, { status := AgentStatus.ready }, {}⟩,
    caches := ⟨[], [rGood1, rBad, rGood2], []⟩ }

/-- Isolated-failure fixture: player Xav was consolidated from ON3 in an
earlier pass; ON3's next fetch fails, then Rivals succeeds with Yuri. -/
def pXav : TransferPlayer :=
  { player_id := "xav", name := "Xav", sources := [Source.on3],
    last_updated := { on3 := some 0 } }

def rXav : RawRecord := { name := some "Xav" }

def rYuri : RawRecord := { name := some "Yuri" }

def stIso : OrchState :=
  { players := [("xav", pXav)],
    metrics := ⟨{ status := AgentStatus.ready, last_successful_refresh := some 0 }, {}, {}⟩,
    caches := ⟨[rXav], [], []⟩ }

/-- The state after ON3's failed refresh. -/
def stIsoFail : OrchState := (refreshAgent stIso Source.on3 (.error "net") 0 5).2

/-- The state after Rivals' subsequent successful refresh. -/
def stIsoNext : OrchState := (refreshAgent stIsoFail Source.rivals (.ok [rYuri]) 0 6).2

/-- Consensus fixture: three signals sharing a previous school, two naming
Duke and one naming Kentucky as the destination. -/
def itDuke1 : NewsItem :=
  { player_name := "John Smith", previous_school := some "Kansas",
    destination_school := some "Duke", confidence_score := 8/10,
    publication_date := 3 }

def itDuke2 : NewsItem :=
  { player_name := "John Smith", previous_school := some "Kansas",
    destination_school := some "Duke", confidence_score := 8/10,
    publication_date := 2 }

def itKentucky : NewsItem :=
  { player_name := "John Smith", previous_school := some "Kansas",
    destination_school := some "Kentucky", confidence_score := 8/10,
    publication_date := 1 }

/-- Two-signal fixture: destinations disagree, no previous school known. -/
def itPairA : NewsItem :=
  { player_name := "P Q", destination_school := some "Duke",
    confidence_score := 9/10, publication_date := 2 }

def itPairB : NewsItem :=
  { player_name := "P Q", destination_school := some "Kentucky",
    confidence_score := 9/10, publication_date := 1 }

/-- Idempotence fixture. -/
def pFresh : TransferPlayer := { player_id := "nnew", name := "N New" }

def rFull : RawRecord :=
  { name := some "N New", position := some "F", rank := some 4,
    profile_url := some "u" }

/-- Limit fixture: a one-player store. -/
def stOne : OrchState := { players := [("amy", pAmy)] }

/-! Field-level views of one merge step, used to characterise
`updatePlayerFromSource` record-update by record-update. -/

/-- The rankings map after the rank update of lines 361-372. -/
def rankAfter (sp : RawRecord) (s : Source) (R : SMap Int) : SMap Int :=
  match sp.rank with
  | some r => if r ≠ 0 then R.set s r else R
  | none => R

/-- The composite ranking after the rank update of lines 361-372. -/
def compAfter (sp : RawRecord) (s : Source) (R : SMap Int) (C : Option Int) :
    Option Int :=
  match sp.rank with
  | some r =>
      if r ≠ 0 then
        (if (R.set s r).vals ≠ [] then
          some (Int.tdiv (R.set s r).vals.sum ((R.set s r).vals.length : Int))
         else C)
      else C
  | none => C

/-- The profile-URL map after lines 357-359. -/
def urlAfter (sp : RawRecord) (s : Source) (u : SMap String) : SMap String :=
  if strTruthy sp.profile_url then u.set s (sp.profile_url.getD "") else u

/-- The NIL-valuation map after lines 391-393. -/
def nilAfter (sp : RawRecord) (s : Source) (u : SMap String) : SMap String :=
  if strTruthy sp.nil_valuation then u.set s (sp.nil_valuation.getD "") else u

/-- The per-source stats map after lines 374-389. -/
def statsAfter (sp : RawRecord) (s : Source) (u : SMap PlayerStats) :
    SMap PlayerStats :=
  match sp.stats with
  | some sd =>
      let st : PlayerStats :=
        ⟨sd.ppg, sd.rpg, sd.apg, sd.spg, sd.bpg, sd.fg_pct, sd.three_pt_pct,
         sd.ft_pct, none, some s⟩
      u.set s st
  | none => u

/-- The seven scalar fields after the policy of lines 395-431. -/
def basicsAfter (sp : RawRecord) (s : Source) (b : BasicFields) : BasicFields :=
  if s = Source.on3 ∨ anyBasic b = false then updateBasicValues sp b else b

/-! Helper lemmas about the per-source maps and the merge components. -/

theorem SMap.set_set (m : SMap α) (s : Source) (a b : α) :
    (m.set s a).set s b = m.set s b := by
  cases s <;> rfl

theorem SMap.vals_set_ne_nil (m : SMap α) (s : Source) (v : α) :
    (m.set s v).vals ≠ [] := by
  cases s <;> cases m <;> rename_i o1 o2 o3 <;>
    cases o1 <;> cases o2 <;> cases o3 <;> simp [SMap.set, SMap.vals]

theorem PerSource.get_set_self (m : PerSource α) (s : Source) (v : α) :
    (m.set s v).get s = v := by
  cases s <;> rfl

theorem basics_withBasics (p : TransferPlayer) (b : BasicFields) :
    (p.withBasics b).basics = b := rfl

theorem updStamp_basics (p : TransferPlayer) (s : Source) (t : Nat) :
    (updStamp p s t).basics = p.basics := rfl

theorem updUrl_basics (sp : RawRecord) (s : Source) (p : TransferPlayer) :
    (updUrl sp s p).basics = p.basics := by
  unfold updUrl; split <;> rfl

theorem updRank_basics (sp : RawRecord) (s : Source) (p : TransferPlayer) :
    (updRank sp s p).basics = p.basics := by
  unfold updRank
  cases sp.rank with
  | none => rfl
  | some r => by_cases h : r = 0 <;> simp [h] <;> rfl

theorem updStats_basics (sp : RawRecord) (s : Source) (p : TransferPlayer) :
    (updStats sp s p).basics = p.basics := by
  unfold updStats; cases sp.stats <;> rfl

theorem updNil_basics (sp : RawRecord) (s : Source) (p : TransferPlayer) :
    (updNil sp s p).basics = p.basics := by
  unfold updNil; split <;> rfl

theorem updStamp_rankings (p : TransferPlayer) (s : Source) (t : Nat) :
    (updStamp p s t).rankings = p.rankings := rfl

theorem updUrl_rankings (sp : RawRecord) (s : Source) (p : TransferPlayer) :
    (updUrl sp s p).rankings = p.rankings := by
  unfold updUrl; split <;> rfl

theorem updStats_rankings (sp : RawRecord) (s : Source) (p : TransferPlayer) :
    (updStats sp s p).rankings = p.rankings := by
  unfold updStats; cases sp.stats <;> rfl

theorem updNil_rankings (sp : RawRecord) (s : Source) (p : TransferPlayer) :
    (updNil sp s p).rankings = p.rankings := by
  unfold updNil; split <;> rfl

theorem updBasic_rankings (sp : RawRecord) (s : Source) (p : TransferPlayer) :
    (updBasic sp s p).rankings = p.rankings := by
  unfold updBasic; split <;> rfl

theorem updStats_composite (sp : RawRecord) (s : Source) (p : TransferPlayer) :
    (updStats sp s p).composite_ranking = p.composite_ranking := by
  unfold updStats; cases sp.stats <;> rfl

theorem updNil_composite (sp : RawRecord) (s : Source) (p : TransferPlayer) :
    (updNil sp s p).composite_ranking = p.composite_ranking := by
  unfold updNil; split <;> rfl

theorem updBasic_composite (sp : RawRecord) (s : Source) (p : TransferPlayer) :
    (updBasic sp s p).composite_ranking = p.composite_ranking := by
  unfold updBasic; split <;> rfl

theorem updBasic_of_any (sp : RawRecord) (s : Source) (p : TransferPlayer)
    (hs : s ≠ Source.on3) (h : anyBasic p.basics = true) :
    updBasic sp s p = p := by
  unfold updBasic
  rw [if_neg]
  rintro (h1 | h2)
  · exact hs h1
  · rw [h] at h2; cases h2

theorem updBasic_of_empty (sp : RawRecord) (s : Source) (p : TransferPlayer)
    (h : anyBasic p.basics = false) :
    updBasic sp s p = p.withBasics (updateBasicValues sp p.basics) := by
  unfold updBasic
  rw [if_pos (Or.inr h)]

theorem updatePlayer_basics_of_any (p : TransferPlayer) (sp : RawRecord)
    (s : Source) (t : Nat) (hs : s ≠ Source.on3)
    (h : anyBasic p.basics = true) :
    (updatePlayerFromSource p sp s t).basics = p.basics := by
  have hb : (updNil sp s (updStats sp s (updRank sp s (updUrl sp s
      (updStamp p s t))))).basics = p.basics := by
    rw [updNil_basics, updStats_basics, updRank_basics, updUrl_basics,
        updStamp_basics]
  unfold updatePlayerFromSource
  rw [updBasic_of_any sp s _ hs (by rw [hb]; exact h), hb]

theorem updatePlayer_basics_of_empty (p : TransferPlayer) (sp : RawRecord)
    (s : Source) (t : Nat) (h : anyBasic p.basics = false) :
    (updatePlayerFromSource p sp s t).basics = updateBasicValues sp p.basics := by
  have hb : (updNil sp s (updStats sp s (updRank sp s (updUrl sp s
      (updStamp p s t))))).basics = p.basics := by
    rw [updNil_basics, updStats_basics, updRank_basics, updUrl_basics,
        updStamp_basics]
  unfold updatePlayerFromSource
  rw [updBasic_of_empty sp s _ (by rw [hb]; exact h), basics_withBasics, hb]

/-- Claim C4: a merge from a non-authoritative source (anything other than
ON3) never overwrites an already-set scalar field of the consolidated
player: each of position, height, previous school, class year, eligibility,
status and destination school that is already set (truthy in Python's
sense) survives the merge unchanged. -/
theorem c4_non_overwrite (p : TransferPlayer) (sp : RawRecord) (s : Source)
    (t : Nat) (hs : s ≠ Source.on3) :
    (strTruthy p.position = true →
      (updatePlayerFromSource p sp s t).position = p.position) ∧
    (strTruthy p.height = true →
      (updatePlayerFromSource p sp s t).height = p.height) ∧
    (strTruthy p.previous_school = true →
      (updatePlayerFromSource p sp s t).previous_school = p.previous_school) ∧
    (strTruthy p.class_year = true →
      (updatePlayerFromSource p sp s t).class_year = p.class_year) ∧
    (strTruthy p.eligibility = true →
      (updatePlayerFromSource p sp s t).eligibility = p.eligibility) ∧
    (strTruthy p.status = true →
      (updatePlayerFromSource p sp s t).status = p.status) ∧
    (strTruthy p.destination_school = true →
      (updatePlayerFromSource p sp s t).destination_school = p.destination_school) := by
  refine ⟨fun h => ?_, fun h => ?_, fun h => ?_, fun h => ?_, fun h => ?_,
    fun h => ?_, fun h => ?_⟩ <;>
  · have hb := updatePlayer_basics_of_any p sp s t hs
      (by simp [anyBasic, TransferPlayer.basics, h])
    first
      | exact congrArg BasicFields.position hb
      | exact congrArg BasicFields.height hb
      | exact congrArg BasicFields.previous_school hb
      | exact congrArg BasicFields.class_year hb
      | exact congrArg BasicFields.eligibility hb
      | exact congrArg BasicFields.status hb
      | exact congrArg BasicFields.destination_school hb

/-- Witness for C4 at a concrete input: Rivals carries position "F" but the
consolidated position "G" is kept. -/
theorem c4_non_overwrite_witness :
    strTruthy pGuard.position = true ∧
    (updatePlayerFromSource pGuard rHeight Source.rivals 0).position =
      pGuard.position :=
  ⟨by decide,
   (c4_non_overwrite pGuard rHeight Source.rivals 0 (by decide)).1 (by decide)⟩

/-- Counterexample to claim C5: the consolidated record has no height, the
Rivals record supplies one, yet the merge does not populate it (because a
different scalar field, the position, is already set). -/
theorem c5_per_field_cex :
    pGuard.height = none ∧ rHeight.height = some "6-5" ∧
    (updatePlayerFromSource pGuard rHeight Source.rivals 0).height ≠
      some "6-5" := by
  decide

/-- Claim C5 (amended): for a non-authoritative source, gap-filling is
all-or-nothing per record, not per field — if every one of the seven scalar
fields is currently empty the record's supplied values are written, and if
any single one of them is set the record populates none of them. -/
theorem c5_gap_fill_amended (p : TransferPlayer) (sp : RawRecord) (s : Source)
    (t : Nat) (hs : s ≠ Source.on3) :
    (anyBasic p.basics = true →
      (updatePlayerFromSource p sp s t).basics = p.basics) ∧
    (anyBasic p.basics = false →
      (updatePlayerFromSource p sp s t).basics = updateBasicValues sp p.basics) :=
  ⟨fun h => updatePlayer_basics_of_any p sp s t hs h,
   fun h => updatePlayer_basics_of_empty p sp s t h⟩

/-- Witness for the amended C5: with the position set nothing is filled, and
on a fully empty record the supplied height is filled. -/
theorem c5_gap_fill_amended_witness :
    (updatePlayerFromSource pGuard rHeight Source.rivals 0).basics =
      pGuard.basics ∧
    (updatePlayerFromSource pFresh rHeight Source.rivals 0).basics =
      updateBasicValues rHeight pFresh.basics :=
  ⟨(c5_gap_fill_amended pGuard rHeight Source.rivals 0 (by decide)).1 (by decide),
   (c5_gap_fill_amended pFresh rHeight Source.rivals 0 (by decide)).2 (by decide)⟩

/-- Claim C6: whenever a merge records a per-source rank (the raw rank is
present and truthy), the composite ranking is recomputed as the
integer-truncated mean of all present per-source ranks, each weighted
equally and none excluded. -/
theorem c6_composite_mean (p : TransferPlayer) (sp : RawRecord) (s : Source)
    (t : Nat) (n : Int) (h1 : sp.rank = some n) (h2 : n ≠ 0) :
    (updatePlayerFromSource p sp s t).rankings = p.rankings.set s n ∧
    (updatePlayerFromSource p sp s t).composite_ranking =
      some (Int.tdiv (p.rankings.set s n).vals.sum
        ((p.rankings.set s n).vals.length : Int)) := by
  unfold updatePlayerFromSource
  have hr : updRank sp s (updUrl sp s (updStamp p s t)) =
      { updUrl sp s (updStamp p s t) with
        rankings := p.rankings.set s n,
        composite_ranking :=
          some (Int.tdiv (p.rankings.set s n).vals.sum
            ((p.rankings.set s n).vals.length : Int)) } := by
    unfold updRank
    rw [h1]
    simp only [h2, if_pos, ne_eq, not_false_iff]
    rw [updUrl_rankings, updStamp_rankings]
    rw [if_pos (SMap.vals_set_ne_nil p.rankings s n)]
  rw [hr]
  constructor
  · rw [updBasic_rankings, updNil_rankings, updStats_rankings]
  · rw [updBasic_composite, updNil_composite, updStats_composite]

/-- Witness for C6: ranks {on3: 5, 247: 7} plus a Rivals rank of 9 give the
composite ranking int((5+7+9)/3) = 7. -/
theorem c6_composite_mean_witness :
    (updatePlayerFromSource pRanked rRank9 Source.rivals 0).composite_ranking =
      some 7 :=
  ((c6_composite_mean pRanked rRank9 Source.rivals 0 9 rfl
    (by decide)).2).trans (by decide)

/-- Counterexample to claim C1: on the store holding Amy(10), Bo(3) and
Zed(no composite ranking), the query does NOT return the claimed order
Amy, Bo, Zed. -/
theorem c1_query_order_cex :
    (queryPlayers stOrder defaultPortalQuery).map TransferPlayer.name ≠
      ["Amy", "Bo", "Zed"] := by
  decide

/-- Claim C1 (amended): in the ascending sort key `-(composite or inf)`, a
missing composite ranking becomes minus infinity, so unranked players sort
FIRST, before every ranked player; ranked players follow in descending
composite order with ties broken by ascending name.  The example therefore
returns Zed(None), Amy(10), Bo(3). -/
theorem c1_query_order_amended :
    (∀ (p q : TransferPlayer) (c : Int), p.composite_ranking = none →
      q.composite_ranking = some c → c ≠ 0 →
      queryLe p q = true ∧ queryLe q p = false) ∧
    (queryPlayers stOrder defaultPortalQuery).map TransferPlayer.name =
      ["Zed", "Amy", "Bo"] := by
  constructor
  · intro p q c hp hq hc
    have h1 : negRankKey p = none := by unfold negRankKey; rw [hp]
    have h2 : negRankKey q = some (-c) := by
      unfold negRankKey; rw [hq]; simp [hc]
    unfold queryLe
    rw [h1, h2]
    exact ⟨rfl, rfl⟩
  · decide

/-- Witness for the amended C1: the unranked Zed compares before the ranked
Amy and not conversely. -/
theorem c1_query_order_amended_witness :
    queryLe pZed pAmy = true ∧ queryLe pAmy pZed = false :=
  c1_query_order_amended.1 pZed pAmy 10 rfl rfl (by decide)

/-- Claim C10: a limit of `None` or `0` is falsy, so no truncation happens
and every player passing the filters is returned; a positive limit takes the
first `limit` players after filtering and sorting; the default limit is 20. -/
theorem c10_limit_semantics (st : OrchState) (q : PortalQuery) :
    (q.limit = none →
      queryPlayers st q =
        (if st.players = [] then [] else filteredSortedPlayers st q)) ∧
    (q.limit = some 0 →
      queryPlayers st q =
        (if st.players = [] then [] else filteredSortedPlayers st q)) ∧
    (∀ n : Int, q.limit = some n → 0 < n →
      queryPlayers st q =
        (if st.players = [] then []
         else (filteredSortedPlayers st q).take n.toNat)) ∧
    defaultPortalQuery.limit = some 20 := by
  refine ⟨fun h => ?_, fun h => ?_, fun n hn h0 => ?_, rfl⟩
  · unfold queryPlayers
    rw [h]
  · unfold queryPlayers
    rw [h]
    simp
  · unfold queryPlayers pySlice
    rw [hn]
    simp [Int.ne_of_gt h0, Int.le_of_lt h0]

/-- Witness for C10 at concrete queries: a `None` limit returns the whole
filtered list and a limit of 1 takes the first element after sorting. -/
theorem c10_limit_semantics_witness :
    queryPlayers stOne { limit := none } =
      (if stOne.players = [] then [] else filteredSortedPlayers stOne { limit := none }) ∧
    queryPlayers stOne { limit := some 1 } =
      (if stOne.players = [] then []
       else (filteredSortedPlayers stOne { limit := some 1 }).take (Int.toNat 1)) :=
  ⟨(c10_limit_semantics stOne { limit := none }).1 rfl,
   (c10_limit_semantics stOne { limit := some 1 }).2.2.1 1 rfl (by decide)⟩

/-- Counterexample to claim C2: in a batch [good, malformed, good], the
record before the malformed one is merged but the record after it is NOT —
the whole remainder of the source's batch is dropped. -/
theorem c2_malformed_cex :
    storeLookup (consolidateData stBatch 0).players "amyadams_duke" ≠ none ∧
    storeLookup (consolidateData stBatch 0).players "boburns" = none := by
  decide

/-- Claim C2 (amended): when a source's batch contains a record missing the
required `name` field, the records before it are merged and kept, and the
malformed record together with every record after it in that source's batch
is skipped (the per-source exception handler aborts the rest of the batch). -/
theorem c2_batch_abort_amended (src : Source) (now : Nat) (bad : RawRecord)
    (hbad : bad.name = none) (pre : List RawRecord) :
    ∀ (ps : List (String × TransferPlayer)) (done : List String)
      (post : List RawRecord), (∀ r ∈ pre, r.name ≠ none) →
      consolidateBatch ps done src now (pre ++ bad :: post) =
        consolidateBatch ps done src now pre := by
  induction pre with
  | nil =>
      intro ps done post _
      simp only [List.nil_append]
      unfold consolidateBatch
      rw [hbad]
  | cons r rs ih =>
      intro ps done post hpre
      have hr := hpre r (List.mem_cons_self r rs)
      cases h : r.name with
      | none => exact absurd h hr
      | some nm =>
          simp only [List.cons_append]
          unfold consolidateBatch
          rw [h]
          exact ih _ _ post (fun x hx => hpre x (List.mem_cons_of_mem r hx))

/-- Witness for the amended C2: the concrete batch [good, malformed, good]
consolidates exactly like the batch holding only the first good record. -/
theorem c2_batch_abort_amended_witness :
    consolidateBatch [] [] Source.rivals 0 ([rGood1] ++ rBad :: [rGood2]) =
      consolidateBatch [] [] Source.rivals 0 [rGood1] :=
  c2_batch_abort_amended Source.rivals 0 rBad rfl [rGood1] [] [] [rGood2]
    (by decide)

/-- Counterexample to claim C3: Xav is in the consolidated store; ON3's next
fetch fails (returning false); after Rivals' subsequent successful refresh,
the consolidation pass skips the ERROR source and garbage-collects Xav —
previously consolidated data IS lost because of the failed refresh. -/
theorem c3_isolated_failure_cex :
    storeLookup stIso.players "xav" ≠ none ∧
    (refreshAgent stIso Source.on3 (.error "net") 0 5).1 = false ∧
    storeLookup stIsoNext.players "xav" = none := by
  decide

/-- Claim C3 (amended): a failing fetch is isolated — it loses nothing at
the moment of failure, and other sources' records are still merged and
returned by queries — but at the NEXT consolidation pass every player whose
only contributing source is in ERROR is removed from the store, so a failed
refresh does cost that source's previously consolidated players rather than
merely leaving them stale. -/
theorem c3_isolated_failure_amended :
    stIsoFail.players = stIso.players ∧
    (refreshAgent stIsoFail Source.rivals (.ok [rYuri]) 0 6).1 = true ∧
    (queryPlayers stIsoNext defaultPortalQuery).map TransferPlayer.name =
      ["Yuri"] ∧
    storeLookup stIsoNext.players "xav" = none := by
  decide

/-- Claim C8: `refresh_agent` is total over fetch outcomes (every exception
path is caught): on a failed fetch it returns `false`, sets the source's
status to ERROR and increments its error count; on a successful fetch it
returns `true`. -/
theorem c8_refresh_never_raises (st : OrchState) (src : Source)
    (fetched : Except String (List RawRecord)) (sample : ℚ) (now : Nat) :
    (∀ e, fetched = .error e →
      (refreshAgent st src fetched sample now).1 = false ∧
      ((refreshAgent st src fetched sample now).2.metrics.get src).status =
        AgentStatus.error ∧
      ((refreshAgent st src fetched sample now).2.metrics.get src).error_count =
        (st.metrics.get src).error_count + 1) ∧
    (∀ data, fetched = .ok data →
      (refreshAgent st src fetched sample now).1 = true) := by
  constructor
  · intro e he
    subst he
    refine ⟨rfl, ?_, ?_⟩ <;>
      simp [refreshAgent, PerSource.get_set_self]
  · intro data hd
    subst hd
    rfl

/-- Witness for C8: a failing ON3 fetch returns false with ERROR status and
a bumped error count; a succeeding Rivals fetch returns true. -/
theorem c8_refresh_never_raises_witness :
    (refreshAgent stIso Source.on3 (.error "net") 0 5).1 = false ∧
    ((refreshAgent stIso Source.on3 (.error "net") 0 5).2.metrics.get
      Source.on3).status = AgentStatus.error ∧
    ((refreshAgent stIso Source.on3 (.error "net") 0 5).2.metrics.get
      Source.on3).error_count = (stIso.metrics.get Source.on3).error_count + 1 ∧
    (refreshAgent stIso Source.rivals (.ok [rYuri]) 0 6).1 = true :=
  ⟨((c8_refresh_never_raises stIso Source.on3 (.error "net") 0 5).1 "net" rfl).1,
   ((c8_refresh_never_raises stIso Source.on3 (.error "net") 0 5).1 "net" rfl).2.1,
   ((c8_refresh_never_raises stIso Source.on3 (.error "net") 0 5).1 "net" rfl).2.2,
   (c8_refresh_never_raises stIso Source.rivals (.ok [rYuri]) 0 6).2 [rYuri] rfl⟩

theorem BasicFields.eta (b : BasicFields) :
    (⟨b.position, b.height, b.previous_school, b.class_year, b.eligibility,
      b.status, b.destination_school⟩ : BasicFields) = b := rfl

theorem updateBasicValues_idem (sp : RawRecord) (b : BasicFields) :
    updateBasicValues sp (updateBasicValues sp b) = updateBasicValues sp b := by
  simp only [updateBasicValues, BasicFields.mk.injEq]
  refine ⟨?_, ?_, ?_, ?_, ?_, ?_, ?_⟩ <;> split_ifs <;> rfl

theorem updUrl_char (sp : RawRecord) (s : Source) (p : TransferPlayer) :
    updUrl sp s p = { p with profile_urls := urlAfter sp s p.profile_urls } := by
  unfold updUrl urlAfter
  by_cases h : strTruthy sp.profile_url <;> simp [h]

theorem updRank_char (sp : RawRecord) (s : Source) (p : TransferPlayer) :
    updRank sp s p =
      { p with rankings := rankAfter sp s p.rankings,
               composite_ranking := compAfter sp s p.rankings p.composite_ranking } := by
  unfold updRank rankAfter compAfter
  cases sp.rank with
  | none => rfl
  | some r => by_cases h : r = 0 <;> simp [h]

theorem updStats_char (sp : RawRecord) (s : Source) (p : TransferPlayer) :
    updStats sp s p = { p with stats := statsAfter sp s p.stats } := by
  unfold updStats statsAfter
  cases sp.stats <;> rfl

theorem updNil_char (sp : RawRecord) (s : Source) (p : TransferPlayer) :
    updNil sp s p = { p with nil_valuation := nilAfter sp s p.nil_valuation } := by
  unfold updNil nilAfter
  by_cases h : strTruthy sp.nil_valuation <;> simp [h]

theorem updBasic_char (sp : RawRecord) (s : Source) (p : TransferPlayer) :
    updBasic sp s p = p.withBasics (basicsAfter sp s p.basics) := by
  unfold updBasic basicsAfter
  by_cases h : s = Source.on3 ∨ anyBasic p.basics = false
  · rw [if_pos h, if_pos h]
  · rw [if_neg h, if_neg h]
    rfl

/-- One merge step, written field by field. -/
theorem updatePlayer_char (p : TransferPlayer) (sp : RawRecord) (s : Source)
    (t : Nat) :
    updatePlayerFromSource p sp s t =
      { p with
        position := (basicsAfter sp s p.basics).position,
        height := (basicsAfter sp s p.basics).height,
        previous_school := (basicsAfter sp s p.basics).previous_school,
        class_year := (basicsAfter sp s p.basics).class_year,
        eligibility := (basicsAfter sp s p.basics).eligibility,
        status := (basicsAfter sp s p.basics).status,
        destination_school := (basicsAfter sp s p.basics).destination_school,
        stats := statsAfter sp s p.stats,
        rankings := rankAfter sp s p.rankings,
        composite_ranking := compAfter sp s p.rankings p.composite_ranking,
        profile_urls := urlAfter sp s p.profile_urls,
        nil_valuation := nilAfter sp s p.nil_valuation,
        last_updated := p.last_updated.set s t } := by
  unfold updatePlayerFromSource
  rw [updBasic_char, updNil_char, updStats_char, updRank_char, updUrl_char]
  rfl

theorem basicsAfter_idem (sp : RawRecord) (s : Source) (b : BasicFields) :
    basicsAfter sp s (basicsAfter sp s b) = basicsAfter sp s b := by
  unfold basicsAfter
  by_cases h : s = Source.on3 ∨ anyBasic b = false
  · rw [if_pos h]
    by_cases h2 : s = Source.on3 ∨ anyBasic (updateBasicValues sp b) = false
    · rw [if_pos h2]
      exact updateBasicValues_idem sp b
    · rw [if_neg h2]
  · rw [if_neg h, if_neg h]

theorem urlAfter_idem (sp : RawRecord) (s : Source) (u : SMap String) :
    urlAfter sp s (urlAfter sp s u) = urlAfter sp s u := by
  unfold urlAfter
  by_cases h : strTruthy sp.profile_url <;> simp [h, SMap.set_set]

theorem nilAfter_idem (sp : RawRecord) (s : Source) (u : SMap String) :
    nilAfter sp s (nilAfter sp s u) = nilAfter sp s u := by
  unfold nilAfter
  by_cases h : strTruthy sp.nil_valuation <;> simp [h, SMap.set_set]

theorem statsAfter_idem (sp : RawRecord) (s : Source) (u : SMap PlayerStats) :
    statsAfter sp s (statsAfter sp s u) = statsAfter sp s u := by
  unfold statsAfter
  cases sp.stats <;> simp [SMap.set_set]

theorem rankAfter_idem (sp : RawRecord) (s : Source) (R : SMap Int) :
    rankAfter sp s (rankAfter sp s R) = rankAfter sp s R := by
  unfold rankAfter
  cases sp.rank with
  | none => rfl
  | some r => by_cases h : r = 0 <;> simp [h, SMap.set_set]

theorem compAfter_rankAfter (sp : RawRecord) (s : Source) (R : SMap Int)
    (C : Option Int) :
    compAfter sp s (rankAfter sp s R) (compAfter sp s R C) =
      compAfter sp s R C := by
  unfold rankAfter compAfter
  cases sp.rank with
  | none => rfl
  | some r =>
      by_cases h : r = 0
      · simp [h]
      · by_cases h2 : (R.set s r).vals = [] <;> simp [h, h2, SMap.set_set]

/-- Re-merging the same record through `_update_player_from_source` equals a
single merge performed at the second timestamp. -/
theorem updatePlayer_again (p : TransferPlayer) (sp : RawRecord) (s : Source)
    (t1 t2 : Nat) :
    updatePlayerFromSource (updatePlayerFromSource p sp s t1) sp s t2 =
      updatePlayerFromSource p sp s t2 := by
  rw [updatePlayer_char p sp s t1, updatePlayer_char, updatePlayer_char p sp s t2]
  simp only [TransferPlayer.basics, BasicFields.eta, TransferPlayer.mk.injEq]
  and_intros <;>
    first
      | trivial
      | rw [basicsAfter_idem]
      | rw [statsAfter_idem]
      | rw [rankAfter_idem]
      | rw [compAfter_rankAfter]
      | rw [urlAfter_idem]
      | rw [nilAfter_idem]
      | rw [SMap.set_set]

/-- Counterexample to claim C9: re-merging the identical raw record at a
later wall-clock instant changes the player — the per-source last-updated
timestamp moves — so the records after the first and second merges are not
identical field for field. -/
theorem c9_idempotent_cex :
    mergeOne (mergeOne pFresh rFull Source.rivals 0) rFull Source.rivals 1 ≠
      mergeOne pFresh rFull Source.rivals 0 := by
  decide

/-- Claim C9 (amended): merging the same unchanged raw record from the same
source a second time equals a single merge performed at the second merge's
timestamp — every field is identical except the per-source last-updated
timestamp, which carries the later clock; in particular, with equal
timestamps the merge is strictly idempotent. -/
theorem c9_idempotent_amended (p : TransferPlayer) (sp : RawRecord)
    (s : Source) (t1 t2 : Nat) :
    mergeOne (mergeOne p sp s t1) sp s t2 = mergeOne p sp s t2 := by
  unfold mergeOne
  have hsrc :
      (updatePlayerFromSource
        (if s ∈ p.sources then p else { p with sources := p.sources ++ [s] })
        sp s t1).sources =
      (if s ∈ p.sources then p
       else { p with sources := p.sources ++ [s] }).sources := by
    rw [updatePlayer_char]
  have hmem : s ∈ (updatePlayerFromSource
      (if s ∈ p.sources then p else { p with sources := p.sources ++ [s] })
      sp s t1).sources := by
    rw [hsrc]
    by_cases h : s ∈ p.sources <;> simp [h]
  rw [if_pos hmem]
  exact updatePlayer_again _ sp s t1 t2

/-- Counterexample to claim C7: with only TWO signals for the same player
(destinations Duke and Kentucky, both at confidence 0.9), the claim says
neither adjustment is applied — but the post-processing penalises the signal
disagreeing with the first-tallied destination, dropping it to 0.7. -/
theorem c7_consensus_cex :
    (processPlayerItems [itPairA, itPairB]).map
      (fun it => it.confidence_score) ≠ [9/10, 9/10] := by
  have h : (processPlayerItems [itPairA, itPairB]).map
      (fun it => it.confidence_score) = [9/10, 7/10] := by
    simp +decide [processPlayerItems, sortLe, insertLe, tallySchools,
      countSchool, mostCommon, argmaxFirst, adjustItem, strTruthy, itPairA,
      itPairB]
    norm_num
  rw [h]
  intro hc
  norm_num at hc

/-- Claim C7 (amended): the verified boost (+0.1, capped at 1.0) requires at
least 3 signals AND agreement with an existing majority value on both school
fields, while the −0.2 penalty (floored at 0.3) applies to any signal whose
own truthy value disagrees with the majority whenever the player has MORE
THAN ONE signal; with a single signal nothing is adjusted.  On the concrete
Duke(×2)/Kentucky(×1) trio sharing a previous school, the two agreeing
signals rise from 0.8 to 0.9 and are marked verified and the dissenter drops
to 0.6; on a disagreeing pair, the dissenter is still penalised. -/
theorem c7_consensus_amended :
    (processPlayerItems [itDuke1, itDuke2, itKentucky]).map
      (fun it => (it.confidence_score, it.verified)) =
      [(9/10, true), (9/10, true), (6/10, false)] ∧
    (processPlayerItems [itPairA, itPairB]).map
      (fun it => it.confidence_score) = [9/10, 7/10] ∧
    (∀ it : NewsItem, processPlayerItems [it] = [it]) := by
  refine ⟨?_, ?_, ?_⟩
  · simp +decide [processPlayerItems, sortLe, insertLe, tallySchools,
      countSchool, mostCommon, argmaxFirst, adjustItem, strTruthy, itDuke1,
      itDuke2, itKentucky]
    norm_num
  · simp +decide [processPlayerItems, sortLe, insertLe, tallySchools,
      countSchool, mostCommon, argmaxFirst, adjustItem, strTruthy, itPairA,
      itPairB]
    norm_num
  · intro it
    simp [processPlayerItems]
